import Mathlib

/-!
Verification development for the dev-phone Resource Lifecycle Orchestrator.

The repository holds two implementations of the `dev-phone` command:
* the historical JavaScript one at `src/plugin-dev-phone/src/commands/dev-phone.js`
  (namespace `JS` below), and
* the current TypeScript one (namespace `TS` below), which adds the serverless
  webhook backend, the phone-number binding, the force flag, the
  `/choose-phone-number` route and the 24-hour token ttl.

Remote cloud state is embedded as a list of labelled resources; each
`destroyX` function of the source becomes a filter over that list, each
`createX` an append, and the provisioning / teardown sequences become
functions that thread the state and record a trace of the calls they make.
JavaScript-specific semantics (absent properties read as `undefined`,
truthiness, `process.on` re-invoking a signal handler on every delivery)
are embedded explicitly where the source relies on them.
-/

/-- The resource kinds the orchestrator manages remotely. -/
inductive Kind : Type
  | conversation
  | sync
  | apiKey
  | twimlApp
  | serverless
deriving DecidableEq, Repr

/-- A remote resource as the cloud API lists it: an sid, a human-readable
label (`friendlyName`, which the API may report as null, hence `Option`),
and its kind. -/
structure RemoteResource : Type where
  sid : String
  friendlyName : Option String
  kind : Kind
deriving DecidableEq, Repr

/-- JavaScript truthiness of a possibly-undefined string value:
`undefined` and the empty string are falsy, every other string is truthy. -/
def jsTruthy : Option String → Bool
  | none => false
  | some s => decide (s ≠ "")

/-- JavaScript's `String.prototype.startsWith`, embedded on the character
sequences of the two strings: `strStartsWith s p` holds when `p` is an
initial segment of `s`. -/
def strStartsWith (s p : String) : Bool :=
  p.data.isPrefixOf s.data

namespace JS

/-- The JavaScript implementation's destroy functions read the property
`friendlyname` — all lowercase — off each listed resource
(`item.friendlyname && item.friendlyName.startsWith('dev-phone')`).
The API resource objects only carry the camel-case field `friendlyName`,
so this access yields `undefined`. -/
def friendlynameLowercase (_item : RemoteResource) : Option String := none

/-- The filter predicate of `destroyConversations` / `destroyTwimlApps` /
`destroyApiKeys` / `destroySyncs` in `dev-phone.js`:
`item.friendlyname && item.friendlyName.startsWith('dev-phone')`.
The `&&` short-circuits on the falsy left operand. -/
def destroyFilter (item : RemoteResource) : Bool :=
  if jsTruthy (friendlynameLowercase item) then
    strStartsWith (item.friendlyName.getD "") "dev-phone"
  else
    false

/-- One destroy sweep of the JavaScript implementation: list the resources
of one kind, keep those matching `destroyFilter`, and remove each kept one.
The net effect on the remote state is to drop exactly the matching
resources of that kind. -/
def destroySweep (k : Kind) (remote : List RemoteResource) : List RemoteResource :=
  remote.filter (fun item => !(decide (item.kind = k) && destroyFilter item))

/-- `destroyConversations` of `dev-phone.js`. -/
def destroyConversations (remote : List RemoteResource) : List RemoteResource :=
  destroySweep Kind.conversation remote

/-- `destroyTwimlApps` of `dev-phone.js`. -/
def destroyTwimlApps (remote : List RemoteResource) : List RemoteResource :=
  destroySweep Kind.twimlApp remote

/-- `destroySyncs` of `dev-phone.js`. -/
def destroySyncs (remote : List RemoteResource) : List RemoteResource :=
  destroySweep Kind.sync remote

/-- `destroyApiKeys` of `dev-phone.js`: when the CLI profile already holds a
long-lived API key (its identifier starts with `SK`), the plugin never
created one and the sweep returns immediately; otherwise it sweeps the
account's keys. -/
def destroyApiKeys (profileIsSK : Bool) (remote : List RemoteResource) : List RemoteResource :=
  if profileIsSK then remote else destroySweep Kind.apiKey remote

/-- The sids the remote API assigns to the resources one provisioning run
creates. -/
structure RunSids : Type where
  conversationSid : String
  syncSid : String
  apiKeySid : String
  twimlAppSid : String
deriving DecidableEq, Repr

/-- `createConversation` of `dev-phone.js`: destroy first, then create a
conversation labelled with the session name. -/
def createConversation (name : String) (sid : String)
    (remote : List RemoteResource) : List RemoteResource :=
  destroyConversations remote ++ [⟨sid, some name, Kind.conversation⟩]

/-- `createSync` of `dev-phone.js`: destroy first, then create a sync
service labelled with the session name. -/
def createSync (name : String) (sid : String)
    (remote : List RemoteResource) : List RemoteResource :=
  destroySyncs remote ++ [⟨sid, some name, Kind.sync⟩]

/-- `reuseOrCreateApiKey` of `dev-phone.js`: with an SK-configured profile
the stored key is reused and no remote resource is touched; otherwise the
previous session keys are swept and a fresh key labelled with the session
name is created. -/
def reuseOrCreateApiKey (profileIsSK : Bool) (name : String) (sid : String)
    (remote : List RemoteResource) : List RemoteResource :=
  if profileIsSK then remote
  else destroyApiKeys profileIsSK remote ++ [⟨sid, some name, Kind.apiKey⟩]

/-- `createTwimlApp` of `dev-phone.js`: destroy first, then create a TwiML
application labelled with the session name. -/
def createTwimlApp (name : String) (sid : String)
    (remote : List RemoteResource) : List RemoteResource :=
  destroyTwimlApps remote ++ [⟨sid, some name, Kind.twimlApp⟩]

/-- The resource-creating part of `run()` in `dev-phone.js`, in source
order: conversation, sync, API key, TwiML app. -/
def provision (name : String) (sids : RunSids) (profileIsSK : Bool)
    (remote : List RemoteResource) : List RemoteResource :=
  createTwimlApp name sids.twimlAppSid
    (reuseOrCreateApiKey profileIsSK name sids.apiKeySid
      (createSync name sids.syncSid
        (createConversation name sids.conversationSid remote)))

/-- The SIGINT handler's teardown sweep in `dev-phone.js`:
`destroyConversations`, `destroyTwimlApps`, `destroyApiKeys`,
`destroySyncs`, in that order. -/
def destroySession (profileIsSK : Bool) (remote : List RemoteResource) :
    List RemoteResource :=
  destroySyncs (destroyApiKeys profileIsSK (destroyTwimlApps (destroyConversations remote)))

end JS

/-- The label of a remote resource starts with the given session name. -/
def labelStartsWith (name : String) (item : RemoteResource) : Bool :=
  strStartsWith (item.friendlyName.getD "") name

/-- The resource kinds in the vocabulary of the specification (§3):
the signing credential, the call-history store (sync service), the
messaging service with its conversation, the serverless webhook backend,
the voice application (TwiML app), and the phone-number binding. -/
inductive ProvKind : Type
  | credential
  | callHistoryStore
  | conversation
  | webhookBackend
  | voiceApp
  | phoneNumberBinding
deriving DecidableEq, Repr

/-- A phone number as `reformatTwilioPns` shapes it in the TypeScript
implementation: phoneNumber, friendlyName, smsUrl, voiceUrl, sid. -/
structure Pn : Type where
  phoneNumber : String
  friendlyName : String
  smsUrl : String
  voiceUrl : String
  sid : String
deriving DecidableEq, Repr

/-- The session's three webhook URLs computed from the deployed serverless
domain (`this.voiceUrl`, `this.smsUrl`, `this.statusCallback`). -/
structure SessionUrls : Type where
  voiceUrl : String
  smsUrl : String
  statusCallback : String
deriving DecidableEq, Repr

namespace TS

/-- The environment bindings the TypeScript `createFunction` passes to the
serverless deployment: the sync (call-history store) sid, the conversation
sid, the conversation service sid and the session name. (`createFunction`
also passes the plugin version and the call-log map name; the claims do
not mention them.) -/
structure EnvBindings : Type where
  syncServiceSid : String
  conversationSid : String
  conversationServiceSid : String
  devPhoneName : String
deriving DecidableEq, Repr

/-- The remote create calls the TypeScript `run()` issues, with the
payload fields the claims talk about. -/
inductive CreateEvent : Type
  | apiKeyCreate (label : String)
  | conversationServiceCreate (label : String)
  | conversationCreate (label : String)
  | participantCreate (identity : String)
  | syncServiceCreate (label : String)
  | syncMapCreate (uniqueName : String)
  | serverlessDeploy (env : EnvBindings)
  | twimlAppCreate (voiceUrl : String) (label : String)
  | phoneWebhookUpdate (voiceUrl smsUrl statusCallback : String)
deriving DecidableEq, Repr

/-- Maps each primary creation call to the resource kind it provisions;
secondary calls (the nested conversation, the participant, the sync map)
map to `none`. -/
def eventKind : CreateEvent → Option ProvKind
  | .apiKeyCreate _ => some ProvKind.credential
  | .conversationServiceCreate _ => some ProvKind.conversation
  | .conversationCreate _ => none
  | .participantCreate _ => none
  | .syncServiceCreate _ => some ProvKind.callHistoryStore
  | .syncMapCreate _ => none
  | .serverlessDeploy _ => some ProvKind.webhookBackend
  | .twimlAppCreate _ _ => some ProvKind.voiceApp
  | .phoneWebhookUpdate _ _ _ => some ProvKind.phoneNumberBinding

/-- The filter predicate of the TypeScript destroy functions:
`item.friendlyName !== null && item.friendlyName.startsWith(this.devPhoneName)`. -/
def destroyFilter (name : String) (item : RemoteResource) : Bool :=
  match item.friendlyName with
  | none => false
  | some s => strStartsWith s name

/-- One destroy sweep of the TypeScript implementation: list one kind,
keep the resources whose label starts with the session name, remove each. -/
def destroySweep (name : String) (k : Kind) (remote : List RemoteResource) :
    List RemoteResource :=
  remote.filter (fun item => !(decide (item.kind = k) && destroyFilter name item))

/-- `destroyConversations` of the TypeScript implementation (conversation
services labelled with the session name). -/
def destroyConversations (name : String) (remote : List RemoteResource) :
    List RemoteResource :=
  destroySweep name Kind.conversation remote

/-- `destroyTwimlApps` of the TypeScript implementation. -/
def destroyTwimlApps (name : String) (remote : List RemoteResource) :
    List RemoteResource :=
  destroySweep name Kind.twimlApp remote

/-- `destroySyncs` of the TypeScript implementation. -/
def destroySyncs (name : String) (remote : List RemoteResource) :
    List RemoteResource :=
  destroySweep name Kind.sync remote

/-- `destroyFunction` of the TypeScript implementation (serverless
services labelled with the session name). -/
def destroyFunction (name : String) (remote : List RemoteResource) :
    List RemoteResource :=
  destroySweep name Kind.serverless remote

/-- `destroyApiKeys` of the TypeScript implementation: an SK-configured
profile never created a key, so the sweep returns immediately. -/
def destroyApiKeys (profileIsSK : Bool) (name : String)
    (remote : List RemoteResource) : List RemoteResource :=
  if profileIsSK then remote else destroySweep name Kind.apiKey remote

/-- Modelled from the spec: `removePhoneWebhooks` lives in
`src/utils/phone-number-utils`, which is not under `src/`. Per §4.3 it
"resets SMS/voice/status-callback fields to empty; safe to call on an
already-unbound number (no-op, not an error)", and it is a no-op when no
number is bound. -/
def removePhoneWebhooks (bound : Option Pn) (pns : List Pn) : List Pn :=
  match bound with
  | none => pns
  | some b =>
      pns.map (fun p =>
        if p.sid = b.sid then { p with smsUrl := "", voiceUrl := "" } else p)

/-- Modelled from the spec: `updatePhoneWebhooks` lives in
`src/utils/phone-number-utils`, which is not under `src/`. Per §4.3/§2 it
attaches the webhook backend's URLs to the chosen phone number,
overwriting its SMS and voice webhook configuration, and returns the
updated number. -/
def updatePhoneWebhooksPn (pn : Pn) (urls : SessionUrls) : Pn :=
  { pn with smsUrl := urls.smsUrl, voiceUrl := urls.voiceUrl }

/-- Modelled from the spec: the serverless bundle's outbound-call handler
path (`constants.OUTBOUND_CALL_HANDLER` of `create-serverless-util`,
which is not under `src/`); §4.1 says the voice app's inbound voice URL
"points at the WebhookBackend's outbound-call handler". -/
def OUTBOUND_CALL_HANDLER : String := "outbound-call"

end TS

namespace TS

/-- The identifiers and secrets the remote API assigns during one
TypeScript provisioning run. -/
structure RemoteIds : Type where
  apiKeySid : String
  apiKeySecret : String
  convServiceSid : String
  convSid : String
  syncSid : String
  serverlessSid : String
  domain : String
  twimlAppSid : String
deriving DecidableEq, Repr

/-- The plugin object that `this.apikey` holds: a JavaScript object whose
`sid` and `secret` properties may be undefined. -/
structure ApiKeyObj : Type where
  sid : Option String
  secret : Option String
deriving DecidableEq, Repr

/-- `this.conversation` after `createConversation`: the conversation
service sid and the conversation sid. -/
structure ConversationInfo : Type where
  serviceSid : String
  sid : String
deriving DecidableEq, Repr

/-- `this.sync` after `createSync`. -/
structure SyncInfo : Type where
  sid : String
deriving DecidableEq, Repr

/-- The outcome of the resource-creating part of the TypeScript `run()`:
the remote create calls in the order they were issued, the remote resource
state, the session's webhook URLs, the cached phone-number setting, and
the plugin-object fields the token issuer reads. -/
structure RunResult : Type where
  events : List CreateEvent
  remote : List RemoteResource
  urls : SessionUrls
  phoneNumber : Option Pn
  apikey : ApiKeyObj
  conversation : Option ConversationInfo
  sync : Option SyncInfo
  twimlAppSid : Option String
deriving Repr

/-- The resource-creating part of the TypeScript `run()` in source order:
`reuseOrCreateApiKey`, `createConversation` (service, conversation, sole
participant), `createSync` (service, `CallLog` map), `createFunction`
(serverless deploy with the env bindings, computing the session URLs from
the deployed domain), `createTwimlApp` (voice URL = the outbound-call
handler URL), then `updatePhoneWebhooks` on the phone number chosen via
the CLI flag, if any. Each destroy-before-create sweep of the source is
applied to the remote state. The `--clear` path is not taken. -/
def run (name : String) (ids : RemoteIds) (profileIsSK : Bool)
    (profileKey profileSecret : String) (flagPhoneNumber : Option Pn)
    (remote0 : List RemoteResource) : RunResult :=
  -- reuseOrCreateApiKey
  let (ev1, apikey, remote1) :=
    if profileIsSK then
      (([] : List CreateEvent), ApiKeyObj.mk (some profileKey) (some profileSecret), remote0)
    else
      ([CreateEvent.apiKeyCreate name],
       ApiKeyObj.mk (some ids.apiKeySid) (some ids.apiKeySecret),
       destroyApiKeys profileIsSK name remote0 ++ [⟨ids.apiKeySid, some name, Kind.apiKey⟩])
  -- createConversation: destroy sweep, create service, conversation, participant
  let conv : ConversationInfo := ⟨ids.convServiceSid, ids.convSid⟩
  let ev2 := [CreateEvent.conversationServiceCreate name,
              CreateEvent.conversationCreate name,
              CreateEvent.participantCreate name]
  let remote2 := destroyConversations name remote1 ++
    [⟨ids.convServiceSid, some name, Kind.conversation⟩]
  -- createSync: destroy sweep, create service, create the CallLog map
  let sy : SyncInfo := ⟨ids.syncSid⟩
  let ev3 := [CreateEvent.syncServiceCreate name, CreateEvent.syncMapCreate "CallLog"]
  let remote3 := destroySyncs name remote2 ++ [⟨ids.syncSid, some name, Kind.sync⟩]
  -- createFunction: deployServerless with the env bindings read off
  -- this.sync and this.conversation; no destroy-before-create here
  let env : EnvBindings := ⟨sy.sid, conv.sid, conv.serviceSid, name⟩
  let ev4 := [CreateEvent.serverlessDeploy env]
  let remote4 := remote3 ++ [⟨ids.serverlessSid, some name, Kind.serverless⟩]
  let voiceOutboundUrl := "https://" ++ ids.domain ++ "/" ++ OUTBOUND_CALL_HANDLER
  let urls : SessionUrls :=
    ⟨"https://" ++ ids.domain ++ "/incoming-call",
     "https://" ++ ids.domain ++ "/incoming-message",
     "https://" ++ ids.domain ++ "/sync-call-history"⟩
  -- createTwimlApp: destroy sweep, then create with voiceUrl = voiceOutboundUrl
  let ev5 := [CreateEvent.twimlAppCreate voiceOutboundUrl name]
  let remote5 := destroyTwimlApps name remote4 ++
    [⟨ids.twimlAppSid, some name, Kind.twimlApp⟩]
  -- updatePhoneWebhooks on this.cliSettings.phoneNumber (no-op without one)
  let (ev6, phoneNumber) :=
    match flagPhoneNumber with
    | none => (([] : List CreateEvent), (none : Option Pn))
    | some pn =>
        ([CreateEvent.phoneWebhookUpdate urls.voiceUrl urls.smsUrl urls.statusCallback],
         some (updatePhoneWebhooksPn pn urls))
  { events := ev1 ++ ev2 ++ ev3 ++ ev4 ++ ev5 ++ ev6
    remote := remote5
    urls := urls
    phoneNumber := phoneNumber
    apikey := apikey
    conversation := some conv
    sync := some sy
    twimlAppSid := some ids.twimlAppSid }

/-- The kinds of the resources one `run` creates, in creation order. -/
def runKinds (r : RunResult) : List ProvKind :=
  r.events.filterMap eventKind

end TS

namespace TS

/-- The calls the drain path makes, in the order they are issued. -/
inductive DrainStep : Type
  | destroyConversations
  | destroyTwimlApps
  | destroyApiKeys
  | destroySyncs
  | destroyFunction
  | removeWebhooks
  | exitProcess (code : Nat)
deriving DecidableEq, Repr

/-- The outcome of one SIGINT/SIGTERM drain: the calls it made in order,
the remote resource state it leaves, the phone numbers after the webhook
removal, and the process exit status. -/
structure DrainResult : Type where
  steps : List DrainStep
  remote : List RemoteResource
  pns : List Pn
  exitCode : Nat
deriving Repr

/-- The TypeScript SIGINT/SIGTERM handler: `onShutdown` runs
`destroyConversations`, `destroyTwimlApps`, `destroyApiKeys`,
`destroySyncs`, `destroyFunction`, `removePhoneWebhooks` in that source
order, and the handler then calls `process.exit(0)`. -/
def sigintHandler (name : String) (profileIsSK : Bool)
    (remote : List RemoteResource) (pns : List Pn) (bound : Option Pn) :
    DrainResult :=
  let r1 := destroyConversations name remote
  let r2 := destroyTwimlApps name r1
  let r3 := destroyApiKeys profileIsSK name r2
  let r4 := destroySyncs name r3
  let r5 := destroyFunction name r4
  let pns1 := removePhoneWebhooks bound pns
  { steps := [DrainStep.destroyConversations, DrainStep.destroyTwimlApps,
              DrainStep.destroyApiKeys, DrainStep.destroySyncs,
              DrainStep.destroyFunction, DrainStep.removeWebhooks,
              DrainStep.exitProcess 0]
    remote := r5
    pns := pns1
    exitCode := 0 }

/-- The teardown call that destroys a resource of the given kind. -/
def destroyStepOfKind : ProvKind → DrainStep
  | ProvKind.credential => DrainStep.destroyApiKeys
  | ProvKind.conversation => DrainStep.destroyConversations
  | ProvKind.callHistoryStore => DrainStep.destroySyncs
  | ProvKind.webhookBackend => DrainStep.destroyFunction
  | ProvKind.voiceApp => DrainStep.destroyTwimlApps
  | ProvKind.phoneNumberBinding => DrainStep.removeWebhooks

/-- The drain sequence the claim describes: first unbind the phone
number's webhooks, then destroy the session's resources in reverse of
their creation order (the phone-number binding's removal being the
unbind itself), then exit with status 0. -/
def claimedDrainSteps (creationKinds : List ProvKind) : List DrainStep :=
  DrainStep.removeWebhooks ::
    ((creationKinds.filter
        (fun k => decide (k ≠ ProvKind.phoneNumberBinding))).reverse.map destroyStepOfKind)
    ++ [DrainStep.exitProcess 0]

/-- How a signal handler is registered on the process object: the source
uses `process.on('SIGINT', ...)` and `process.on('SIGTERM', ...)`. -/
inductive HandlerMode : Type
  | on
  | once
deriving DecidableEq, Repr

/-- The registration the TypeScript source performs:
`process.on('SIGINT', async function () { ... })`. -/
def sigintRegistrationMode : HandlerMode := HandlerMode.on

/-- Node event-emitter process state for one signal: whether the listener
is still installed, and how many times the teardown body has been
started. -/
structure SignalState : Type where
  listenerInstalled : Bool
  teardownStarts : Nat
deriving DecidableEq, Repr

/-- Node's signal-delivery semantics, embedded: delivering a signal
invokes every installed listener; a listener registered with `on` stays
installed afterwards, one registered with `once` is removed after its
first invocation. The handler body of the source starts the asynchronous
teardown and only calls `process.exit(0)` after it finishes, and the body
contains no drained flag or other guard, so each delivery that happens
before the first teardown finishes starts the teardown body again. -/
def deliverSignal (mode : HandlerMode) (st : SignalState) : SignalState :=
  if st.listenerInstalled then
    { listenerInstalled := match mode with | HandlerMode.on => true | HandlerMode.once => false
      teardownStarts := st.teardownStarts + 1 }
  else st

/-- Delivering `n` signals in a row, all before the first teardown run
has completed. -/
def deliverSignals (mode : HandlerMode) : Nat → SignalState → SignalState
  | 0, st => st
  | n + 1, st => deliverSignals mode n (deliverSignal mode st)

end TS

namespace TS

/-- A capability grant added to the access token. The sids are `Option`
because the source passes whatever the corresponding plugin-object
property holds, which may be undefined. -/
inductive Grant : Type
  | chat (serviceSid : Option String)
  | voice (incomingAllow : Bool) (outgoingApplicationSid : Option String)
  | sync (serviceSid : Option String)
deriving DecidableEq, Repr

/-- The data of a built access token: signing inputs, identity, validity
window in seconds, and the grants in the order they were added. -/
structure AccessTokenData : Type where
  accountSid : String
  keySid : String
  keySecret : String
  identity : String
  ttl : Nat
  grants : List Grant
deriving DecidableEq, Repr

/-- The plugin-object state `createJwt` reads. `this.conversation` and
`this.sync` are not initialised by the constructor, hence `Option`;
`this.twimlApp` is initialised to the empty object `{}`, so the object
always exists but its `sid` property may be undefined; `this.apikey` is
likewise initialised to `{}`. -/
structure JwtState : Type where
  accountSid : String
  devPhoneName : String
  apikey : ApiKeyObj
  conversation : Option ConversationInfo
  sync : Option SyncInfo
  twimlAppSid : Option String
deriving DecidableEq, Repr

/-- The ways `createJwt` can throw: a TypeError from reading
`serviceSid`/`sid` off an undefined `this.conversation` or `this.sync`,
or the rejection the token library raises. -/
inductive JwtFailure : Type
  | typeErrorConversation
  | typeErrorSync
  | signingError
deriving DecidableEq, Repr

/-- Modelled from the spec: the `AccessToken` constructor belongs to the
external token-signing library, not to this repository; per §4.4/§7
token issuance "fails with SigningError if the credential is absent", so
the constructor rejects a falsy account sid, key sid or key secret. -/
def accessTokenConstructorAccepts (accountSid : String) (keySid keySecret : Option String) :
    Bool :=
  jsTruthy (some accountSid) && jsTruthy keySid && jsTruthy keySecret

/-- `createJwt` of the TypeScript implementation: build the chat grant
from `this.conversation.serviceSid`, the voice grant from
`this.twimlApp.sid` with `incomingAllow: true`, the sync grant from
`this.sync.sid`, then construct the token with the account sid, the API
key sid and secret, identity `this.devPhoneName` and `ttl: 24*60*60`,
and add the three grants in that order. -/
def createJwt (st : JwtState) : Except JwtFailure AccessTokenData :=
  match st.conversation with
  | none => Except.error JwtFailure.typeErrorConversation
  | some conv =>
    let chatGrant := Grant.chat (some conv.serviceSid)
    let voiceGrant := Grant.voice true st.twimlAppSid
    match st.sync with
    | none => Except.error JwtFailure.typeErrorSync
    | some sy =>
      let syncGrant := Grant.sync (some sy.sid)
      if accessTokenConstructorAccepts st.accountSid st.apikey.sid st.apikey.secret then
        Except.ok
          { accountSid := st.accountSid
            keySid := st.apikey.sid.getD ""
            keySecret := st.apikey.secret.getD ""
            identity := st.devPhoneName
            ttl := 24 * 60 * 60
            grants := [chatGrant, voiceGrant, syncGrant] }
      else
        Except.error JwtFailure.signingError

/-- The jwt-relevant state a completed `run` leaves. -/
def jwtStateOfRun (accountSid : String) (name : String) (r : RunResult) : JwtState :=
  { accountSid := accountSid
    devPhoneName := name
    apikey := r.apikey
    conversation := r.conversation
    sync := r.sync
    twimlAppSid := r.twimlAppSid }

end TS

/-- Modelled from the spec: `isSmsUrlSet` lives in
`src/utils/phone-number-utils`, which is not under `src/`. Per §4.3 a
number "may only be bound if it currently has no configured SMS/voice
webhook" and per §8 an unbound number's webhooks are "reset to empty
strings", so an SMS webhook URL counts as set exactly when it is
non-empty. -/
def isSmsUrlSet (url : String) : Bool := decide (url ≠ "")

/-- Modelled from the spec: `isVoiceUrlSet` lives in
`src/utils/phone-number-utils`, which is not under `src/`; as for
`isSmsUrlSet`, a voice webhook URL counts as set exactly when it is
non-empty. -/
def isVoiceUrlSet (url : String) : Bool := decide (url ≠ "")

namespace TS

/-- The conflict message `validatePropsAndFlags` throws, given the list of
already-set configuration descriptions. -/
def conflictMessage (number : String) (configAlreadySet : List String) : String :=
  "Cannot use " ++ number ++
    " because the following config for that phone number would be overwritten: " ++
    String.intercalate ", " configAlreadySet

/-- The not-found message `validatePropsAndFlags` throws when the account
has no matching number. -/
def notAssociatedMessage (number : String) : String :=
  "The phone number " ++ number ++ " is not associated with your Twilio account"

/-- The phone-number part of the TypeScript `validatePropsAndFlags`:
list the account numbers matching the flag; throw if there is none;
compute which of the SMS and voice webhook URLs of the first match are
already set; throw the conflict error when any is set and force mode is
off; otherwise cache the first match as the session's phone number. -/
def validatePhoneNumberFlag (number : String) (force : Bool) (pnMatches : List Pn) :
    Except String Pn :=
  match pnMatches with
  | [] => Except.error (notAssociatedMessage number)
  | pn :: _ =>
    let pnConfigAlreadySet :=
      ([if isSmsUrlSet pn.smsUrl then some "SMS webhook URL" else none,
        if isVoiceUrlSet pn.voiceUrl then some "Voice webhook URL" else none]).filterMap id
    if pnConfigAlreadySet.length > 0 && !force then
      Except.error (conflictMessage number pnConfigAlreadySet)
    else
      Except.ok pn

/-- The result of the `/choose-phone-number` route: HTTP status, response
message, the cached phone-number setting afterwards, and the account's
numbers (with their webhook configuration) afterwards. -/
structure ChooseResult : Type where
  status : Nat
  message : String
  settings : Option Pn
  pns : List Pn
deriving DecidableEq, Repr

/-- The `/choose-phone-number` handler of the TypeScript implementation:
list the remote matches for the requested number; when exactly one match
exists, unbind the previously cached number, cache the match and bind the
session's webhook URLs to it; otherwise answer 400 "Phone number not
found!" without touching anything. -/
def choosePhoneNumber (settings : Option Pn) (urls : SessionUrls)
    (pns : List Pn) (pnMatches : List Pn) : ChooseResult :=
  match pnMatches with
  | [pn] =>
      let pns1 := removePhoneWebhooks settings pns
      let bound := updatePhoneWebhooksPn pn urls
      let pns2 := pns1.map (fun p => if p.sid = pn.sid then bound else p)
      { status := 200, message := "Phone number updated!",
        settings := some bound, pns := pns2 }
  | _ =>
      { status := 400, message := "Phone number not found!",
        settings := settings, pns := pns }

end TS

/-- Concrete remote-assigned identifiers for the concrete evaluations
below. -/
def exampleIds : TS.RemoteIds :=
  ⟨"SK100", "secret100", "ISC1", "CH1", "IS1", "ZS1", "d-1234.twil.io", "AP1"⟩

/-- A concrete account phone number with no webhook configuration. -/
def examplePn : Pn := ⟨"+15551234567", "main", "", "", "PN1"⟩

/-- A concrete TypeScript provisioning run on a fresh account: no SK
profile key, a phone number chosen via the CLI flag. -/
def exampleRun : TS.RunResult :=
  TS.run "dev-phone-1" exampleIds false "" "" (some examplePn) []

/-- A jwt state in which every resource object exists and the credential
is present, but the three grant target sids are all the empty string. -/
def jwtStateEmptyIds : TS.JwtState :=
  { accountSid := "AC123", devPhoneName := "dev-phone-1",
    apikey := ⟨some "SK100", some "secret100"⟩,
    conversation := some ⟨"", ""⟩, sync := some ⟨""⟩, twimlAppSid := some "" }

/-- The jwt state right after the plugin constructor ran: credential
object empty, `this.conversation` and `this.sync` undefined,
`this.twimlApp` the empty object. -/
def jwtStateFresh : TS.JwtState :=
  { accountSid := "AC123", devPhoneName := "dev-phone-1",
    apikey := ⟨none, none⟩, conversation := none, sync := none,
    twimlAppSid := none }

/-- A jwt state after a full provisioning run. -/
def jwtStateProvisioned : TS.JwtState :=
  TS.jwtStateOfRun "AC123" "dev-phone-1" exampleRun

/-- The destroy filter of the JavaScript implementation never matches any
resource: its guard reads the nonexistent lowercase property
`friendlyname`, which is undefined and hence falsy. -/
theorem JS.destroyFilter_eq_false (item : RemoteResource) :
    JS.destroyFilter item = false := rfl

/-- A destroy sweep of the JavaScript implementation leaves the remote
state unchanged. -/
theorem JS.destroySweep_eq (k : Kind) (remote : List RemoteResource) :
    JS.destroySweep k remote = remote := by
  unfold JS.destroySweep
  simp [JS.destroyFilter_eq_false]

/-- C1: For every session, running the full provisioning sequence and then
immediately running the session teardown (the
destroyConversations/destroyTwimlApps/destroyApiKeys/destroySyncs sweep)
leaves zero remote resources whose label starts with that session's name.
The JavaScript code violates this: its destroy filter tests the
nonexistent lowercase property `friendlyname`, so the sweep removes
nothing — at the concrete failing input all four provisioned resources,
each labelled with the session name, survive the teardown. -/
theorem C1_js_sweep_leaves_session_resources :
    (JS.destroySession false
      (JS.provision "dev-phone-123456" ⟨"CH1", "IS1", "SK1", "AP1"⟩ false [])).filter
      (labelStartsWith "dev-phone-123456") =
    [⟨"CH1", some "dev-phone-123456", Kind.conversation⟩,
     ⟨"IS1", some "dev-phone-123456", Kind.sync⟩,
     ⟨"SK1", some "dev-phone-123456", Kind.apiKey⟩,
     ⟨"AP1", some "dev-phone-123456", Kind.twimlApp⟩] := by
  decide

/-- C4: Running provision twice with the same session name is claimed to be
idempotent (the second run first destroys the first run's same-session
resource of each kind, leaving at most one live resource per kind per
session). The JavaScript code violates this: the destroy-before-create
sweep's filter tests the nonexistent lowercase property `friendlyname` and
removes nothing, so at the concrete failing input the second run leaves
two live conversations labelled with the session name. -/
theorem C4_js_second_run_duplicates_conversation :
    ((JS.provision "dev-phone-123456" ⟨"CH2", "IS2", "SK2", "AP2"⟩ false
       (JS.provision "dev-phone-123456" ⟨"CH1", "IS1", "SK1", "AP1"⟩ false [])).filter
      (fun r => decide (r.kind = Kind.conversation) &&
        labelStartsWith "dev-phone-123456" r)).length = 2 := by
  decide

/-- No non-empty string is an initial segment of the empty string. -/
theorem strStartsWith_empty_left (p : String) (hp : p ≠ "") :
    strStartsWith "" p = false := by
  unfold strStartsWith
  obtain ⟨pd⟩ := p
  cases pd with
  | nil => exact absurd rfl hp
  | cons c cs => rfl

/-- Surviving a TypeScript destroy sweep means: the resource was already
there, and if it is of the swept kind then the session-name filter did
not match it. -/
theorem TS.mem_destroySweep {name : String} {k : Kind}
    {remote : List RemoteResource} {item : RemoteResource}
    (h : item ∈ TS.destroySweep name k remote) :
    item ∈ remote ∧ (item.kind = k → TS.destroyFilter name item = false) := by
  unfold TS.destroySweep at h
  rw [List.mem_filter] at h
  refine ⟨h.1, fun hk => ?_⟩
  have h2 := h.2
  simp [hk] at h2
  exact h2

/-- A resource the TypeScript session-name filter rejects does not carry a
label starting with the (non-empty) session name. -/
theorem labelStartsWith_eq_false_of_destroyFilter {name : String}
    (hname : name ≠ "") {item : RemoteResource}
    (h : TS.destroyFilter name item = false) :
    labelStartsWith name item = false := by
  unfold TS.destroyFilter at h
  unfold labelStartsWith
  cases hf : item.friendlyName with
  | none => simpa using strStartsWith_empty_left name hname
  | some s => rw [hf] at h; simpa using h

/-- C2 counterexample: at a concrete provisioned session, the steps the
SIGINT handler actually runs are not "unbind the webhooks first, then
destroy this session's resources in reverse of their creation order, then
exit 0": the handler destroys conversations first and unbinds the phone
number's webhooks last. -/
theorem C2_counterexample :
    (TS.sigintHandler "dev-phone-1" false exampleRun.remote [examplePn]
        exampleRun.phoneNumber).steps ≠
      TS.claimedDrainSteps (TS.runKinds exampleRun) := by
  decide

/-- C2 amended: on draining, the TypeScript handler runs the teardown
calls in the fixed source order — conversations, TwiML apps, API keys,
sync services, serverless functions — then unbinds the phone number's
webhooks last rather than first, and exits with status 0; with a minted
(non-profile) credential the drain removes every remote resource whose
label starts with the session name. -/
theorem C2_amended (name : String) (sk : Bool) (remote : List RemoteResource)
    (pns : List Pn) (bound : Option Pn) (hname : name ≠ "") (hsk : sk = false) :
    (TS.sigintHandler name sk remote pns bound).steps =
      [TS.DrainStep.destroyConversations, TS.DrainStep.destroyTwimlApps,
       TS.DrainStep.destroyApiKeys, TS.DrainStep.destroySyncs,
       TS.DrainStep.destroyFunction, TS.DrainStep.removeWebhooks,
       TS.DrainStep.exitProcess 0] ∧
    (TS.sigintHandler name sk remote pns bound).exitCode = 0 ∧
    ∀ item ∈ (TS.sigintHandler name sk remote pns bound).remote,
      labelStartsWith name item = false := by
  subst hsk
  refine ⟨rfl, rfl, fun item h => ?_⟩
  have h5 := @TS.mem_destroySweep name Kind.serverless _ _ h
  have h4 := @TS.mem_destroySweep name Kind.sync _ _ h5.1
  have h3 := @TS.mem_destroySweep name Kind.apiKey _ _ h4.1
  have h2 := @TS.mem_destroySweep name Kind.twimlApp _ _ h3.1
  have h1 := @TS.mem_destroySweep name Kind.conversation _ _ h2.1
  cases hk : item.kind with
  | conversation => exact labelStartsWith_eq_false_of_destroyFilter hname (h1.2 hk)
  | sync => exact labelStartsWith_eq_false_of_destroyFilter hname (h4.2 hk)
  | apiKey => exact labelStartsWith_eq_false_of_destroyFilter hname (h3.2 hk)
  | twimlApp => exact labelStartsWith_eq_false_of_destroyFilter hname (h2.2 hk)
  | serverless => exact labelStartsWith_eq_false_of_destroyFilter hname (h5.2 hk)

/-- Witness for C2 amended at a concrete input: one session-labelled
conversation service, no bound number. -/
theorem C2_amended_witness :
    (TS.sigintHandler "dev-phone-1" false
        [⟨"ISC1", some "dev-phone-1", Kind.conversation⟩] [] none).exitCode = 0 ∧
    ∀ item ∈ (TS.sigintHandler "dev-phone-1" false
        [⟨"ISC1", some "dev-phone-1", Kind.conversation⟩] [] none).remote,
      labelStartsWith "dev-phone-1" item = false :=
  let h := C2_amended "dev-phone-1" false
    [⟨"ISC1", some "dev-phone-1", Kind.conversation⟩] [] none (by decide) rfl
  ⟨h.2.1, h.2.2⟩

/-- C3 counterexample: at a concrete provisioning run, the creation order
is not the claimed Credential, CallHistoryStore,
MessagingService/Conversation, WebhookBackend, VoiceApp,
PhoneNumberBinding — the conversation is created before the call-history
store. -/
theorem C3_counterexample :
    TS.runKinds exampleRun ≠
      [ProvKind.credential, ProvKind.callHistoryStore, ProvKind.conversation,
       ProvKind.webhookBackend, ProvKind.voiceApp, ProvKind.phoneNumberBinding] := by
  decide

/-- C3 amended: provisioning creates the resource kinds in the fixed
dependency order Credential, then MessagingService/Conversation with the
session added as sole participant, then CallHistoryStore (sync service),
then WebhookBackend (deployed with the call-history-store id, the
conversation and conversation-service ids and the session name as
environment bindings), then VoiceApp whose inbound voice URL points at
the WebhookBackend's outbound-call handler, then PhoneNumberBinding. -/
theorem C3_amended (name : String) (ids : TS.RemoteIds)
    (profileKey profileSecret : String) (pn : Pn)
    (remote0 : List RemoteResource) :
    TS.runKinds (TS.run name ids false profileKey profileSecret (some pn) remote0) =
      [ProvKind.credential, ProvKind.conversation, ProvKind.callHistoryStore,
       ProvKind.webhookBackend, ProvKind.voiceApp, ProvKind.phoneNumberBinding] ∧
    TS.CreateEvent.serverlessDeploy ⟨ids.syncSid, ids.convSid, ids.convServiceSid, name⟩ ∈
      (TS.run name ids false profileKey profileSecret (some pn) remote0).events ∧
    TS.CreateEvent.twimlAppCreate
        ("https://" ++ ids.domain ++ "/" ++ TS.OUTBOUND_CALL_HANDLER) name ∈
      (TS.run name ids false profileKey profileSecret (some pn) remote0).events ∧
    ((TS.run name ids false profileKey profileSecret (some pn) remote0).events.filter
        (fun e => match e with
          | TS.CreateEvent.participantCreate _ => true
          | _ => false)) = [TS.CreateEvent.participantCreate name] := by
  refine ⟨rfl, ?_, ?_, rfl⟩
  · simp [TS.run]
  · simp [TS.run]

/-- C5: binding a phone number that already has an SMS or voice webhook
URL set fails, when force mode is off, with the conflict error whose
message lists exactly those of {SMS webhook URL, Voice webhook URL} that
were already set; with force mode on, validation succeeds with that
number and binding it overwrites the prior SMS and voice configuration
with the session's URLs. -/
theorem C5_bind_conflict_and_force (number : String) (pn : Pn) (rest : List Pn)
    (urls : SessionUrls)
    (hset : isSmsUrlSet pn.smsUrl = true ∨ isVoiceUrlSet pn.voiceUrl = true) :
    (∃ L : List String, L ≠ [] ∧
        TS.validatePhoneNumberFlag number false (pn :: rest) =
          Except.error (TS.conflictMessage number L) ∧
        (("SMS webhook URL" ∈ L) ↔ isSmsUrlSet pn.smsUrl = true) ∧
        (("Voice webhook URL" ∈ L) ↔ isVoiceUrlSet pn.voiceUrl = true) ∧
        L.Sublist ["SMS webhook URL", "Voice webhook URL"]) ∧
    TS.validatePhoneNumberFlag number true (pn :: rest) = Except.ok pn ∧
    (TS.updatePhoneWebhooksPn pn urls).smsUrl = urls.smsUrl ∧
    (TS.updatePhoneWebhooksPn pn urls).voiceUrl = urls.voiceUrl := by
  cases hs : isSmsUrlSet pn.smsUrl <;> cases hv : isVoiceUrlSet pn.voiceUrl
  · rw [hs, hv] at hset
    rcases hset with h | h <;> exact absurd h (by simp)
  · exact ⟨⟨["Voice webhook URL"], by simp,
      by simp [TS.validatePhoneNumberFlag, hs, hv], by simp [hs], by simp [hv],
      by simp⟩,
      by simp [TS.validatePhoneNumberFlag, hs, hv], rfl, rfl⟩
  · exact ⟨⟨["SMS webhook URL"], by simp,
      by simp [TS.validatePhoneNumberFlag, hs, hv], by simp [hs], by simp [hv],
      by simp⟩,
      by simp [TS.validatePhoneNumberFlag, hs, hv], rfl, rfl⟩
  · exact ⟨⟨["SMS webhook URL", "Voice webhook URL"], by simp,
      by simp [TS.validatePhoneNumberFlag, hs, hv], by simp [hs], by simp [hv],
      by simp⟩,
      by simp [TS.validatePhoneNumberFlag, hs, hv], rfl, rfl⟩

/-- Witness for C5 at a concrete input: a number whose SMS webhook URL is
already set. -/
theorem C5_witness :
    isSmsUrlSet "https://old.example/sms" = true ∧
    TS.validatePhoneNumberFlag "+15551234567" true
        [⟨"+15551234567", "main", "https://old.example/sms", "", "PN1"⟩] =
      Except.ok ⟨"+15551234567", "main", "https://old.example/sms", "", "PN1"⟩ :=
  ⟨by decide,
   (C5_bind_conflict_and_force "+15551234567"
      ⟨"+15551234567", "main", "https://old.example/sms", "", "PN1"⟩ []
      ⟨"https://new.example/voice", "https://new.example/sms", "https://new.example/cb"⟩
      (Or.inl (by decide))).2.1⟩

/-- C6: every issued session token has identity equal to the session
name, a fixed 24-hour (24*60*60 seconds) validity window, and exactly
three grants: a chat grant bound to the conversation service id, a voice
grant bound to the TwiML app id with inbound calls allowed, and a sync
grant bound to the call-history store id, added in that order. -/
theorem C6_issued_token_shape (st : TS.JwtState) (t : TS.AccessTokenData)
    (h : TS.createJwt st = Except.ok t) :
    t.identity = st.devPhoneName ∧ t.ttl = 24 * 60 * 60 ∧
    ∃ conv sy, st.conversation = some conv ∧ st.sync = some sy ∧
      t.grants = [TS.Grant.chat (some conv.serviceSid),
                  TS.Grant.voice true st.twimlAppSid,
                  TS.Grant.sync (some sy.sid)] ∧
      t.grants.length = 3 := by
  cases hc : st.conversation with
  | none => simp [TS.createJwt, hc] at h
  | some conv =>
    cases hs : st.sync with
    | none => simp [TS.createJwt, hc, hs] at h
    | some sy =>
      simp only [TS.createJwt, hc, hs] at h
      by_cases hacc : TS.accessTokenConstructorAccepts st.accountSid
          st.apikey.sid st.apikey.secret = true
      · rw [if_pos hacc] at h
        cases h
        exact ⟨rfl, rfl, conv, sy, rfl, rfl, rfl, rfl⟩
      · rw [if_neg hacc] at h
        exact absurd h (by simp)

/-- Witness for C6 at a concrete input: the jwt state after the concrete
provisioning run issues a token with identity `dev-phone-1`, a 24-hour
ttl and the three grants bound to the run's conversation service, TwiML
app and sync service. -/
theorem C6_issued_token_shape_witness :
    (TS.createJwt jwtStateProvisioned).isOk = true ∧
    ∀ t, TS.createJwt jwtStateProvisioned = Except.ok t →
      t.identity = "dev-phone-1" ∧ t.ttl = 24 * 60 * 60 ∧ t.grants.length = 3 :=
  ⟨by decide, fun t ht => by
    obtain ⟨h1, h2, conv, sy, _, _, _, h6⟩ :=
      C6_issued_token_shape jwtStateProvisioned t ht
    exact ⟨h1, h2, h6⟩⟩

/-- C7 counterexample: in a state where every resource object exists and
the signing credential is present but all three grant target sids are the
empty string, token issuance does not fail — it returns a token whose
grants carry the empty sids, contradicting the claimed SigningError on
empty grant target ids. -/
theorem C7_counterexample :
    TS.createJwt jwtStateEmptyIds =
      Except.ok
        { accountSid := "AC123", keySid := "SK100", keySecret := "secret100",
          identity := "dev-phone-1", ttl := 24 * 60 * 60,
          grants := [TS.Grant.chat (some ""), TS.Grant.voice true (some ""),
                     TS.Grant.sync (some "")] } := rfl

/-- C7 amended: token issuance throws when the conversation or the
call-history store object is absent (a TypeError from reading the id off
undefined) or when the signing credential is absent or empty (rejected by
the token library); an empty grant target id on an existing resource, or
a missing TwiML app sid, does not cause failure; once the conversation,
the store and the credential are present, issuance succeeds and the token
carries exactly three grants. -/
theorem C7_amended (st : TS.JwtState) :
    (st.conversation = none →
      TS.createJwt st = Except.error TS.JwtFailure.typeErrorConversation) ∧
    (∀ conv, st.conversation = some conv → st.sync = none →
      TS.createJwt st = Except.error TS.JwtFailure.typeErrorSync) ∧
    (jsTruthy st.apikey.sid = false → ∃ e, TS.createJwt st = Except.error e) ∧
    (∀ conv sy, st.conversation = some conv → st.sync = some sy →
      jsTruthy st.apikey.sid = true → jsTruthy st.apikey.secret = true →
      st.accountSid ≠ "" →
      ∃ t, TS.createJwt st = Except.ok t ∧ t.grants.length = 3) := by
  refine ⟨fun hc => by simp [TS.createJwt, hc], fun conv hc hs => by simp [TS.createJwt, hc, hs],
    fun hk => ?_, fun conv sy hc hs hk hsec hacct => ?_⟩
  · cases hc : st.conversation with
    | none => exact ⟨TS.JwtFailure.typeErrorConversation, by simp [TS.createJwt, hc]⟩
    | some conv =>
      cases hs : st.sync with
      | none => exact ⟨TS.JwtFailure.typeErrorSync, by simp [TS.createJwt, hc, hs]⟩
      | some sy =>
        refine ⟨TS.JwtFailure.signingError, ?_⟩
        have hacc : TS.accessTokenConstructorAccepts st.accountSid
            st.apikey.sid st.apikey.secret = false := by
          unfold TS.accessTokenConstructorAccepts
          simp [hk]
        simp [TS.createJwt, hc, hs, hacc]
  · have h1 : jsTruthy (some st.accountSid) = true := by
      simp [jsTruthy, hacct]
    have hacc : TS.accessTokenConstructorAccepts st.accountSid
        st.apikey.sid st.apikey.secret = true := by
      unfold TS.accessTokenConstructorAccepts
      rw [h1, hk, hsec]
      rfl
    refine ⟨⟨st.accountSid, st.apikey.sid.getD "", st.apikey.secret.getD "",
      st.devPhoneName, 24 * 60 * 60,
      [TS.Grant.chat (some conv.serviceSid), TS.Grant.voice true st.twimlAppSid,
       TS.Grant.sync (some sy.sid)]⟩, ?_, rfl⟩
    simp [TS.createJwt, hc, hs, hacc]

/-- Witness for C7 amended at concrete inputs: the freshly constructed
plugin state fails with the conversation TypeError, and the fully
provisioned state issues a token with three grants. -/
theorem C7_amended_witness :
    TS.createJwt jwtStateFresh = Except.error TS.JwtFailure.typeErrorConversation ∧
    ∃ t, TS.createJwt jwtStateProvisioned = Except.ok t ∧ t.grants.length = 3 :=
  ⟨(C7_amended jwtStateFresh).1 rfl,
   (C7_amended jwtStateProvisioned).2.2.2 ⟨"ISC1", "CH1"⟩ ⟨"IS1"⟩ rfl rfl
     (by decide) (by decide) (by decide)⟩

/-- C8: when the remote lookup for the requested number returns zero
matches or more than one match, the `/choose-phone-number` handler
answers 400 "Phone number not found!" and leaves both the cached
phone-number setting and the account numbers' webhook configuration
exactly as they were. -/
theorem C8_choose_not_found_unchanged (settings : Option Pn) (urls : SessionUrls)
    (pns : List Pn) (pnMatches : List Pn) (h : pnMatches.length ≠ 1) :
    TS.choosePhoneNumber settings urls pns pnMatches =
      { status := 400, message := "Phone number not found!",
        settings := settings, pns := pns } := by
  cases pnMatches with
  | nil => rfl
  | cons a t =>
    cases t with
    | nil => exact absurd rfl h
    | cons b t2 => rfl

/-- Witness for C8 at a concrete input: an empty match list, with a
previously bound number cached. -/
theorem C8_choose_not_found_unchanged_witness :
    ([] : List Pn).length ≠ 1 ∧
    TS.choosePhoneNumber (some examplePn)
        ⟨"https://d-1234.twil.io/incoming-call",
         "https://d-1234.twil.io/incoming-message",
         "https://d-1234.twil.io/sync-call-history"⟩ [examplePn] [] =
      { status := 400, message := "Phone number not found!",
        settings := some examplePn, pns := [examplePn] } :=
  ⟨by decide,
   C8_choose_not_found_unchanged (some examplePn)
     ⟨"https://d-1234.twil.io/incoming-call",
      "https://d-1234.twil.io/incoming-message",
      "https://d-1234.twil.io/sync-call-history"⟩ [examplePn] [] (by decide)⟩

/-- C9 counterexample: with the handler registered via `process.on` as in
the source, a second interrupt delivered while the first teardown is
still draining starts the teardown body a second time — it is not run
exactly once. -/
theorem C9_counterexample :
    (TS.deliverSignals TS.sigintRegistrationMode 2 ⟨true, 0⟩).teardownStarts = 2 ∧
    ¬ ((TS.deliverSignals TS.sigintRegistrationMode 2 ⟨true, 0⟩).teardownStarts ≤ 1) := by
  decide

/-- C9 amended: the SIGINT/SIGTERM handler is registered with
`process.on` and its body contains no once-only guard or drained flag, so
re-entrant signal delivery during draining is not ignored: every one of
`n` signals delivered before the first teardown run completes starts the
teardown body again, for `n` starts in total. -/
theorem C9_amended (n : Nat) (st : TS.SignalState)
    (h : st.listenerInstalled = true) :
    (TS.deliverSignals TS.sigintRegistrationMode n st).teardownStarts =
      st.teardownStarts + n := by
  induction n generalizing st with
  | zero => rfl
  | succ m ih =>
    have hstep : TS.deliverSignal TS.sigintRegistrationMode st =
        ⟨true, st.teardownStarts + 1⟩ := by
      unfold TS.deliverSignal TS.sigintRegistrationMode
      rw [h]
      rfl
    calc (TS.deliverSignals TS.sigintRegistrationMode (m + 1) st).teardownStarts
        = (TS.deliverSignals TS.sigintRegistrationMode m
            (TS.deliverSignal TS.sigintRegistrationMode st)).teardownStarts := rfl
      _ = (TS.deliverSignals TS.sigintRegistrationMode m
            (⟨true, st.teardownStarts + 1⟩ : TS.SignalState)).teardownStarts := by
            rw [hstep]
      _ = st.teardownStarts + 1 + m := ih ⟨true, st.teardownStarts + 1⟩ rfl
      _ = st.teardownStarts + (m + 1) := by omega

/-- Witness for C9 amended: three signals delivered during the drain start
the teardown three times. -/
theorem C9_amended_witness :
    (TS.deliverSignals TS.sigintRegistrationMode 3 ⟨true, 0⟩).teardownStarts = 0 + 3 :=
  C9_amended 3 ⟨true, 0⟩ rfl
